import Mathlib

/-!
Verification of the tty0tty null-modem serial driver core
(`src/module/tty0tty.c`), shallowly embedded in Lean 4.

The embedding models the driver's per-port state (`struct tty0tty_serial`),
the global port table, and the operations `get_counterpart`, `tty0tty_open`,
`do_close`/`tty0tty_close`, `tty0tty_write`, `tty0tty_tiocmget`,
`tty0tty_tiocmset` and the loop body of `tty0tty_ioctl_tiocmiwait`.
Machine integers (`unsigned int` register shadows) are modelled as `Nat`;
the C bitwise complement `~m` on `unsigned int` is modelled as
`0xFFFFFFFF ^^^ m`, which agrees with C for all register values that occur.
Kernel-side concerns (flip buffers, wait queues, semaphores) are external
collaborators: writes report what they would hand to the counterpart's flip
buffer, and the TIOCMIWAIT loop body is modelled as a pure step function on
counter snapshots.
-/

namespace Tty0tty

/-! ### Register bit constants, from the `#define`s in tty0tty.c -/

def MCR_DTR : Nat := 0x01
def MCR_RTS : Nat := 0x02
def MCR_LOOP : Nat := 0x04

def MSR_CTS : Nat := 0x10
def MSR_CD : Nat := 0x20
def MSR_DSR : Nat := 0x40
def MSR_RI : Nat := 0x80

/-! Linux `TIOCM_*` modem-line bits (from `asm-generic/termbits.h`),
used by the tiocmget/tiocmset/tiocmiwait interface. -/

def TIOCM_DTR : Nat := 0x002
def TIOCM_RTS : Nat := 0x004
def TIOCM_CTS : Nat := 0x020
def TIOCM_CAR : Nat := 0x040
def TIOCM_CD : Nat := TIOCM_CAR
def TIOCM_RNG : Nat := 0x080
def TIOCM_RI : Nat := TIOCM_RNG
def TIOCM_DSR : Nat := 0x100
def TIOCM_LOOP : Nat := 0x8000

/-- Linux errno values as they appear in the driver's `return -E...`. -/
def EINVAL : Int := 22
def ENODEV : Int := 19
def EIO : Int := 5
def ERESTARTSYS : Int := 512

/-- Bitwise complement at `unsigned int` width, as used by `mcr &= ~MCR_RTS`
etc.; for arguments below `2^32` this is exactly the C `~`. -/
def compl32 (m : Nat) : Nat := 0xFFFFFFFF ^^^ m

/-! ### Data model -/

/-- `struct async_icount`: the per-port interrupt counters. The driver copies
exactly these fields in `tty0tty_ioctl_tiocgicount`. -/
structure AsyncIcount where
  cts : Nat
  dsr : Nat
  rng : Nat
  dcd : Nat
  rx : Nat
  tx : Nat
  frame : Nat
  overrun : Nat
  parity : Nat
  brk : Nat
  buf_overrun : Nat
deriving DecidableEq, Repr

/-- The all-zero counters a port starts with (`kzalloc` zeroes the struct). -/
def zeroIcount : AsyncIcount := ⟨0, 0, 0, 0, 0, 0, 0, 0, 0, 0, 0⟩

/-- `struct tty0tty_serial`: the per-port record. The `tty` pointer,
semaphore and `serial_struct` are kernel collaborators and carry no core
state of their own, so they are not modelled. -/
structure Tty0ttySerial where
  open_count : Nat
  msr : Nat
  mcr : Nat
  icount : AsyncIcount
deriving DecidableEq, Repr

/-- The global driver state: `tty0tty_table`, an array of per-port records
indexed by the tty index, each entry initially NULL (`none`). -/
structure DriverState where
  table : Nat → Option Tty0ttySerial

/-- Point update of the table, modelling `tty0tty_table[i] = p`. -/
def updTable (f : Nat → Option Tty0ttySerial) (i : Nat) (v : Option Tty0ttySerial) :
    Nat → Option Tty0ttySerial :=
  fun j => if j = i then v else f j

/-- The state right after `tty0tty_init`: every table entry NULL. -/
def initState : DriverState := ⟨fun _ => none⟩

/-! ### Pairing rule and counterpart lookup -/

/-- The counterpart index computed inside `get_counterpart`:
`counterpart_idx = idx + 1; if (idx % 2) counterpart_idx = idx - 1;`. -/
def counterpart_idx (i : Nat) : Nat :=
  if i % 2 ≠ 0 then i - 1 else i + 1

/-- `get_counterpart`: returns the counterpart record only when it exists and
has `open_count > 0`; otherwise NULL. -/
def get_counterpart (table : Nat → Option Tty0ttySerial) (i : Nat) :
    Option Tty0ttySerial :=
  match table (counterpart_idx i) with
  | some tts => if 0 < tts.open_count then some tts else none
  | none => none

/-! ### Open -/

/-- The MSR computed in `tty0tty_open` from the counterpart's MCR
(the null-modem transfer: RTS→CTS, DTR→{DSR,CD}). -/
def open_msr (mcr : Nat) : Nat :=
  let msr := 0
  let msr := if mcr &&& MCR_RTS ≠ 0 then msr ||| MSR_CTS else msr
  let msr := if mcr &&& MCR_DTR ≠ 0 then msr ||| MSR_DSR ||| MSR_CD else msr
  msr

/-- The counterpart's MCR as read in `tty0tty_open`: the local `mcr` stays 0
when the counterpart is absent or not open. -/
def counterpart_mcr (st : DriverState) (i : Nat) : Nat :=
  match get_counterpart st.table i with
  | some tts => tts.mcr
  | none => 0

/-- The counterpart's MSR as read at the start of `tty0tty_tiocmset`: the
working `msr` stays 0 when the counterpart is absent or not open. -/
def counterpart_msr (st : DriverState) (i : Nat) : Nat :=
  match get_counterpart st.table i with
  | some tts => tts.msr
  | none => 0

/-- `tty0tty_open` on index `i`: create the record on first use
(`kzalloc` + `open_count = 0`), derive this port's MSR from the counterpart's
MCR (0 when the counterpart is absent or not open), clear this port's MCR,
and increment `open_count`. -/
def tty0tty_open (st : DriverState) (i : Nat) : DriverState :=
  let tty0tty :=
    match st.table i with
    | some t => t
    | none => { open_count := 0, msr := 0, mcr := 0, icount := zeroIcount }
  let mcr := counterpart_mcr st i
  let msr := open_msr mcr
  let tty0tty :=
    { tty0tty with msr := msr, mcr := 0, open_count := tty0tty.open_count + 1 }
  ⟨updTable st.table i (some tty0tty)⟩

/-! ### Close -/

/-- `do_close` on the record at index `i`: first, if the counterpart is open,
its MSR is set to 0 (this happens before the `open_count` check); then
`open_count` is decremented unless it is already 0. -/
def do_close (st : DriverState) (i : Nat) : DriverState :=
  match st.table i with
  | none => st
  | some tty0tty =>
    let table1 :=
      match get_counterpart st.table i with
      | some tts => updTable st.table (counterpart_idx i) (some { tts with msr := 0 })
      | none => st.table
    let tty0tty' :=
      if tty0tty.open_count = 0 then tty0tty
      else { tty0tty with open_count := tty0tty.open_count - 1 }
    ⟨updTable table1 i (some tty0tty')⟩

/-- `tty0tty_close`: calls `do_close` when `tty->driver_data` is non-NULL,
i.e. when a record exists for the index. -/
def tty0tty_close (st : DriverState) (i : Nat) : DriverState :=
  match st.table i with
  | none => st
  | some _ => do_close st i

/-! ### Write -/

/-- `tty0tty_write` on index `i` with `buffer`. Returns the driver's return
value and, as second component, the bytes handed to the counterpart's flip
buffer (`none` when nothing is inserted). `retval` starts at `-EINVAL`; it
becomes `count` only when the counterpart is open (so its `tty` pointer is
non-NULL); a missing record returns `-ENODEV`. The driver state itself is
not mutated by a write. -/
def tty0tty_write (st : DriverState) (i : Nat) (buffer : List Nat) :
    Int × Option (List Nat) :=
  match st.table i with
  | none => (-ENODEV, none)
  | some tty0tty =>
    if tty0tty.open_count = 0 then (-EINVAL, none)
    else
      match get_counterpart st.table i with
      | some _ => ((buffer.length : Int), some buffer)
      | none => (-EINVAL, none)

/-- `tty0tty_write_room`: `-ENODEV` without a record, `-EINVAL` when the port
is not open, otherwise the fixed constant 255. -/
def tty0tty_write_room (st : DriverState) (i : Nat) : Int :=
  match st.table i with
  | none => -ENODEV
  | some tty0tty =>
    if tty0tty.open_count = 0 then -EINVAL else 255

/-! ### tiocmget / tiocmset -/

/-- The result bit vector assembled by `tty0tty_tiocmget` from the port's
MCR and MSR shadows. -/
def tiocmget_result (t : Tty0ttySerial) : Nat :=
  (if t.mcr &&& MCR_DTR ≠ 0 then TIOCM_DTR else 0) |||
  (if t.mcr &&& MCR_RTS ≠ 0 then TIOCM_RTS else 0) |||
  (if t.mcr &&& MCR_LOOP ≠ 0 then TIOCM_LOOP else 0) |||
  (if t.msr &&& MSR_CTS ≠ 0 then TIOCM_CTS else 0) |||
  (if t.msr &&& MSR_CD ≠ 0 then TIOCM_CAR else 0) |||
  (if t.msr &&& MSR_RI ≠ 0 then TIOCM_RI else 0) |||
  (if t.msr &&& MSR_DSR ≠ 0 then TIOCM_DSR else 0)

/-- `tty0tty_tiocmget` at state level: defined whenever the record exists
(`tty->driver_data` non-NULL); it never inspects `open_count`. -/
def tty0tty_tiocmget (st : DriverState) (i : Nat) : Option Nat :=
  match st.table i with
  | none => none
  | some t => some (tiocmget_result t)

/-- The register updates performed by `tty0tty_tiocmset` on the local MCR and
the counterpart's MSR, in source order: the `set` bits are applied first,
then the `clear` bits. -/
def tiocmset_regs (mcr0 msr0 set clear : Nat) : Nat × Nat :=
  let mcr := mcr0
  let msr := msr0
  let p := if set &&& TIOCM_RTS ≠ 0 then (mcr ||| MCR_RTS, msr ||| MSR_CTS) else (mcr, msr)
  let mcr := p.1
  let msr := p.2
  let p := if set &&& TIOCM_DTR ≠ 0 then (mcr ||| MCR_DTR, msr ||| MSR_DSR ||| MSR_CD)
           else (mcr, msr)
  let mcr := p.1
  let msr := p.2
  let p := if clear &&& TIOCM_RTS ≠ 0 then (mcr &&& compl32 MCR_RTS, msr &&& compl32 MSR_CTS)
           else (mcr, msr)
  let mcr := p.1
  let msr := p.2
  let p := if clear &&& TIOCM_DTR ≠ 0 then
             (mcr &&& compl32 MCR_DTR, msr &&& compl32 MSR_DSR &&& compl32 MSR_CD)
           else (mcr, msr)
  p

/-- `tty0tty_tiocmset` at state level. The working MSR starts from the
counterpart's MSR when the counterpart is open, else 0; after the register
updates the local MCR is stored back, and the MSR is stored into the
counterpart only when the counterpart is open. Always returns 0. `none` only
when no record exists for `i`. -/
def tty0tty_tiocmset (st : DriverState) (i : Nat) (set clear : Nat) :
    Option (DriverState × Int) :=
  match st.table i with
  | none => none
  | some tty0tty =>
    let msr0 := counterpart_msr st i
    let p := tiocmset_regs tty0tty.mcr msr0 set clear
    let table1 := updTable st.table i (some { tty0tty with mcr := p.1 })
    let table2 :=
      match get_counterpart st.table i with
      | some tts => updTable table1 (counterpart_idx i) (some { tts with msr := p.2 })
      | none => table1
    some (⟨table2⟩, 0)

/-! ### TIOCMIWAIT loop body -/

/-- Outcome of one iteration of the wait loop in
`tty0tty_ioctl_tiocmiwait` after being woken. -/
inductive WaitOutcome where
  | cancelled
  | noChange
  | success
  | again (cprev : AsyncIcount)
deriving DecidableEq, Repr

/-- One iteration of the wait loop: a pending signal returns
`-ERESTARTSYS`; an unchanged four-counter snapshot returns `-EIO`; a change
on a line requested in `arg` returns 0; otherwise the snapshot is updated to
`cnow` and the caller blocks again. -/
def tiocmiwait_step (arg : Nat) (cprev cnow : AsyncIcount)
    (signal_pending : Bool) : WaitOutcome :=
  if signal_pending then .cancelled
  else if cnow.rng = cprev.rng ∧ cnow.dsr = cprev.dsr ∧ cnow.dcd = cprev.dcd ∧
          cnow.cts = cprev.cts then .noChange
  else if (arg &&& TIOCM_RNG ≠ 0 ∧ cnow.rng ≠ cprev.rng) ∨
          (arg &&& TIOCM_DSR ≠ 0 ∧ cnow.dsr ≠ cprev.dsr) ∨
          (arg &&& TIOCM_CD ≠ 0 ∧ cnow.dcd ≠ cprev.dcd) ∨
          (arg &&& TIOCM_CTS ≠ 0 ∧ cnow.cts ≠ cprev.cts) then .success
  else .again cnow

/-- The driver return value of a finished wait iteration. -/
def waitRet : WaitOutcome → Option Int
  | .cancelled => some (- ERESTARTSYS)
  | .noChange => some (- EIO)
  | .success => some 0
  | .again _ => none

/-! ### The driver as a transition system -/

/-- The state-mutating entry points of the driver. `tiocmget`, the serial and
icount ioctls, `set_termios`, `write` and `write_room` read but never mutate
driver state; `write` is included to document that. -/
inductive Op where
  | openOp (i : Nat)
  | closeOp (i : Nat)
  | writeOp (i : Nat) (buffer : List Nat)
  | tiocmsetOp (i : Nat) (set clear : Nat)

/-- Effect of one entry point on the driver state. -/
def stepOp (st : DriverState) : Op → DriverState
  | .openOp i => tty0tty_open st i
  | .closeOp i => tty0tty_close st i
  | .writeOp _ _ => st
  | .tiocmsetOp i set clear =>
    match tty0tty_tiocmset st i set clear with
    | some (st', _) => st'
    | none => st

/-- States reachable from the freshly initialized driver by any sequence of
entry-point calls. -/
inductive Reachable : DriverState → Prop where
  | init : Reachable initState
  | next (st : DriverState) (op : Op) : Reachable st → Reachable (stepOp st op)

/-! ### Ground facts about the bit constants -/

@[simp] lemma tb_MSR_CTS_4 : Nat.testBit MSR_CTS 4 = true := by decide
@[simp] lemma tb_MSR_CTS_5 : Nat.testBit MSR_CTS 5 = false := by decide
@[simp] lemma tb_MSR_CTS_6 : Nat.testBit MSR_CTS 6 = false := by decide
@[simp] lemma tb_MSR_CTS_7 : Nat.testBit MSR_CTS 7 = false := by decide
@[simp] lemma tb_MSR_CD_4 : Nat.testBit MSR_CD 4 = false := by decide
@[simp] lemma tb_MSR_CD_5 : Nat.testBit MSR_CD 5 = true := by decide
@[simp] lemma tb_MSR_CD_6 : Nat.testBit MSR_CD 6 = false := by decide
@[simp] lemma tb_MSR_CD_7 : Nat.testBit MSR_CD 7 = false := by decide
@[simp] lemma tb_MSR_DSR_4 : Nat.testBit MSR_DSR 4 = false := by decide
@[simp] lemma tb_MSR_DSR_5 : Nat.testBit MSR_DSR 5 = false := by decide
@[simp] lemma tb_MSR_DSR_6 : Nat.testBit MSR_DSR 6 = true := by decide
@[simp] lemma tb_MSR_DSR_7 : Nat.testBit MSR_DSR 7 = false := by decide
@[simp] lemma tb_nCTS_4 : Nat.testBit (compl32 MSR_CTS) 4 = false := by decide
@[simp] lemma tb_nCTS_5 : Nat.testBit (compl32 MSR_CTS) 5 = true := by decide
@[simp] lemma tb_nCTS_6 : Nat.testBit (compl32 MSR_CTS) 6 = true := by decide
@[simp] lemma tb_nCTS_7 : Nat.testBit (compl32 MSR_CTS) 7 = true := by decide
@[simp] lemma tb_nCD_4 : Nat.testBit (compl32 MSR_CD) 4 = true := by decide
@[simp] lemma tb_nCD_5 : Nat.testBit (compl32 MSR_CD) 5 = false := by decide
@[simp] lemma tb_nCD_6 : Nat.testBit (compl32 MSR_CD) 6 = true := by decide
@[simp] lemma tb_nCD_7 : Nat.testBit (compl32 MSR_CD) 7 = true := by decide
@[simp] lemma tb_nDSR_4 : Nat.testBit (compl32 MSR_DSR) 4 = true := by decide
@[simp] lemma tb_nDSR_5 : Nat.testBit (compl32 MSR_DSR) 5 = true := by decide
@[simp] lemma tb_nDSR_6 : Nat.testBit (compl32 MSR_DSR) 6 = false := by decide
@[simp] lemma tb_nDSR_7 : Nat.testBit (compl32 MSR_DSR) 7 = true := by decide
@[simp] lemma tb_MCR_RTS_0 : Nat.testBit MCR_RTS 0 = false := by decide
@[simp] lemma tb_MCR_RTS_1 : Nat.testBit MCR_RTS 1 = true := by decide
@[simp] lemma tb_MCR_RTS_2 : Nat.testBit MCR_RTS 2 = false := by decide
@[simp] lemma tb_MCR_DTR_0 : Nat.testBit MCR_DTR 0 = true := by decide
@[simp] lemma tb_MCR_DTR_1 : Nat.testBit MCR_DTR 1 = false := by decide
@[simp] lemma tb_MCR_DTR_2 : Nat.testBit MCR_DTR 2 = false := by decide
@[simp] lemma tb_nRTS_0 : Nat.testBit (compl32 MCR_RTS) 0 = true := by decide
@[simp] lemma tb_nRTS_1 : Nat.testBit (compl32 MCR_RTS) 1 = false := by decide
@[simp] lemma tb_nRTS_2 : Nat.testBit (compl32 MCR_RTS) 2 = true := by decide
@[simp] lemma tb_nDTR_0 : Nat.testBit (compl32 MCR_DTR) 0 = false := by decide
@[simp] lemma tb_nDTR_1 : Nat.testBit (compl32 MCR_DTR) 1 = true := by decide
@[simp] lemma tb_nDTR_2 : Nat.testBit (compl32 MCR_DTR) 2 = true := by decide
@[simp] lemma tb_TIOCM_DTR_15 : Nat.testBit TIOCM_DTR 15 = false := by decide
@[simp] lemma tb_TIOCM_RTS_15 : Nat.testBit TIOCM_RTS 15 = false := by decide
@[simp] lemma tb_TIOCM_LOOP_15 : Nat.testBit TIOCM_LOOP 15 = true := by decide
@[simp] lemma tb_TIOCM_CTS_15 : Nat.testBit TIOCM_CTS 15 = false := by decide
@[simp] lemma tb_TIOCM_CAR_15 : Nat.testBit TIOCM_CAR 15 = false := by decide
@[simp] lemma tb_TIOCM_RI_15 : Nat.testBit TIOCM_RI 15 = false := by decide
@[simp] lemma tb_TIOCM_DSR_15 : Nat.testBit TIOCM_DSR 15 = false := by decide

/-- The C truthiness test `x & 2^i` is exactly `testBit i`. -/
lemma and_pow_ne_zero (x i : Nat) : x &&& 2 ^ i ≠ 0 ↔ x.testBit i = true := by
  rw [Nat.and_two_pow]
  cases h : x.testBit i <;> simp [h]

lemma and_MCR_LOOP_ne_zero (x : Nat) : x &&& MCR_LOOP ≠ 0 ↔ x.testBit 2 = true := by
  have h : MCR_LOOP = 2 ^ 2 := by decide
  rw [h, and_pow_ne_zero]

/-! ### Structural lemmas -/

lemma counterpart_idx_ne (i : Nat) : counterpart_idx i ≠ i := by
  unfold counterpart_idx
  split_ifs with h <;> omega

lemma updTable_self (f : Nat → Option Tty0ttySerial) (i : Nat)
    (v : Option Tty0ttySerial) : updTable f i v i = v := by
  simp [updTable]

lemma updTable_ne (f : Nat → Option Tty0ttySerial) (i j : Nat)
    (v : Option Tty0ttySerial) (h : j ≠ i) : updTable f i v j = f j := by
  simp [updTable, h]

/-- The full effect of `tty0tty_tiocmset` when a record exists. -/
lemma tiocmset_some (st : DriverState) (i set clear : Nat) (t : Tty0ttySerial)
    (ht : st.table i = some t) :
    tty0tty_tiocmset st i set clear =
      let p := tiocmset_regs t.mcr (counterpart_msr st i) set clear
      let table1 := updTable st.table i (some { t with mcr := p.1 })
      let table2 :=
        match get_counterpart st.table i with
        | some tts => updTable table1 (counterpart_idx i) (some { tts with msr := p.2 })
        | none => table1
      some (⟨table2⟩, 0) := by
  unfold tty0tty_tiocmset
  rw [ht]

/-- The record at `i` after `tty0tty_tiocmset`: only its MCR changes,
to the first component of `tiocmset_regs`. -/
lemma tiocmset_table_self (st : DriverState) (i set clear : Nat)
    (t : Tty0ttySerial) (st' : DriverState) (r : Int)
    (ht : st.table i = some t)
    (hrun : tty0tty_tiocmset st i set clear = some (st', r)) :
    st'.table i =
      some { t with mcr := (tiocmset_regs t.mcr (counterpart_msr st i) set clear).1 } := by
  rw [tiocmset_some st i set clear t ht] at hrun
  simp only at hrun
  have hst : st' =
      ⟨match get_counterpart st.table i with
       | some tts =>
         updTable (updTable st.table i
             (some { t with mcr := (tiocmset_regs t.mcr (counterpart_msr st i) set clear).1 }))
           (counterpart_idx i)
           (some { tts with msr := (tiocmset_regs t.mcr (counterpart_msr st i) set clear).2 })
       | none =>
         updTable st.table i
           (some { t with mcr := (tiocmset_regs t.mcr (counterpart_msr st i) set clear).1 })⟩ :=
    (congrArg Prod.fst (Option.some.inj hrun)).symm
  subst hst
  cases hget : get_counterpart st.table i <;>
    simp only [hget, updTable_self,
      updTable_ne _ _ _ _ (Ne.symm (counterpart_idx_ne i))]

/-- The LOOP bit of the local MCR is untouched by the register updates of
`tty0tty_tiocmset`, whatever the masks are. -/
lemma tiocmset_regs_mcr_loop (mcr0 msr0 set clear : Nat) :
    (tiocmset_regs mcr0 msr0 set clear).1.testBit 2 = mcr0.testBit 2 := by
  unfold tiocmset_regs
  split_ifs <;> simp_all [Nat.testBit_lor, Nat.testBit_land]

/-- C7: for every valid index `i < 2*pairs`, `counterpart_idx i` is `i+1`
for even `i` and `i-1` for odd `i`, and the map is an involution:
`counterpart_idx (counterpart_idx i) = i`. -/
theorem C7_counterpart_pairing (pairs i : Nat) (_h : i < 2 * pairs) :
    (i % 2 = 0 → counterpart_idx i = i + 1) ∧
    (i % 2 = 1 → counterpart_idx i = i - 1) ∧
    counterpart_idx (counterpart_idx i) = i := by
  refine ⟨fun he => ?_, fun ho => ?_, ?_⟩ <;>
    simp only [counterpart_idx] <;> split_ifs <;> omega

/-- Witness for C7 at `pairs = 1`, `i = 0`. -/
theorem C7_counterpart_pairing_witness :
    0 < 2 * 1 ∧
    ((0 % 2 = 0 → counterpart_idx 0 = 0 + 1) ∧
     (0 % 2 = 1 → counterpart_idx 0 = 0 - 1) ∧
     counterpart_idx (counterpart_idx 0) = 0) :=
  ⟨by decide, C7_counterpart_pairing 1 0 (by decide)⟩

/-- C9: `tty0tty_tiocmset` can never change the LOOP control bit of the
port's MCR, whatever the set/clear masks are; the LOOP bit is only readable,
through the `TIOCM_LOOP` bit of the `tty0tty_tiocmget` result. -/
theorem C9_loop_bit_immutable :
    (∀ (st : DriverState) (i set clear : Nat) (t : Tty0ttySerial)
       (st' : DriverState) (r : Int) (t' : Tty0ttySerial),
       st.table i = some t →
       tty0tty_tiocmset st i set clear = some (st', r) →
       st'.table i = some t' →
       t'.mcr.testBit 2 = t.mcr.testBit 2) ∧
    (∀ t : Tty0ttySerial, (tiocmget_result t).testBit 15 = t.mcr.testBit 2) := by
  constructor
  · intro st i set clear t st' r t' ht hrun ht'
    have h := tiocmset_table_self st i set clear t st' r ht hrun
    rw [ht'] at h
    cases h
    exact tiocmset_regs_mcr_loop ..
  · intro t
    unfold tiocmget_result
    split_ifs <;> simp_all [and_MCR_LOOP_ne_zero, Nat.testBit_lor]

/-- Witness state for C9: port 0 open with DTR and LOOP asserted (mcr = 5). -/
def w9_st : DriverState :=
  ⟨fun j => if j = 0 then some ⟨1, 0, 5, zeroIcount⟩ else none⟩

/-- Witness for C9: setting RTS on port 0 turns its MCR from 5 into 7,
leaving the LOOP bit as it was. -/
theorem C9_loop_bit_immutable_witness :
    Nat.testBit 7 2 = Nat.testBit 5 2 :=
  C9_loop_bit_immutable.1 w9_st 0 4 0 ⟨1, 0, 5, zeroIcount⟩
    ⟨updTable w9_st.table 0 (some ⟨1, 0, 7, zeroIcount⟩)⟩ 0 ⟨1, 0, 7, zeroIcount⟩
    rfl rfl rfl

/-! ### Register-level facts about the tiocmset null-modem transfer -/

lemma regs_msr_cts_set (mcr0 msr0 set clear : Nat)
    (hs : set &&& TIOCM_RTS ≠ 0) (hc : clear &&& TIOCM_RTS = 0) :
    (tiocmset_regs mcr0 msr0 set clear).2.testBit 4 = true := by
  unfold tiocmset_regs
  split_ifs <;> simp_all [Nat.testBit_lor, Nat.testBit_land]

lemma regs_msr_cts_clear (mcr0 msr0 set clear : Nat)
    (hc : clear &&& TIOCM_RTS ≠ 0) :
    (tiocmset_regs mcr0 msr0 set clear).2.testBit 4 = false := by
  unfold tiocmset_regs
  split_ifs <;> simp_all [Nat.testBit_lor, Nat.testBit_land]

lemma regs_msr_dsr_cd_set (mcr0 msr0 set clear : Nat)
    (hs : set &&& TIOCM_DTR ≠ 0) (hc : clear &&& TIOCM_DTR = 0) :
    (tiocmset_regs mcr0 msr0 set clear).2.testBit 6 = true ∧
    (tiocmset_regs mcr0 msr0 set clear).2.testBit 5 = true := by
  unfold tiocmset_regs
  split_ifs <;> constructor <;> simp_all [Nat.testBit_lor, Nat.testBit_land]

lemma regs_msr_dsr_cd_clear (mcr0 msr0 set clear : Nat)
    (hc : clear &&& TIOCM_DTR ≠ 0) :
    (tiocmset_regs mcr0 msr0 set clear).2.testBit 6 = false ∧
    (tiocmset_regs mcr0 msr0 set clear).2.testBit 5 = false := by
  unfold tiocmset_regs
  split_ifs <;> constructor <;> simp_all [Nat.testBit_lor, Nat.testBit_land]

lemma regs_msr_ri_frame (mcr0 msr0 set clear : Nat) :
    (tiocmset_regs mcr0 msr0 set clear).2.testBit 7 = msr0.testBit 7 := by
  unfold tiocmset_regs
  split_ifs <;> simp_all [Nat.testBit_lor, Nat.testBit_land]

lemma regs_msr_cts_frame (mcr0 msr0 set clear : Nat)
    (hs : set &&& TIOCM_RTS = 0) (hc : clear &&& TIOCM_RTS = 0) :
    (tiocmset_regs mcr0 msr0 set clear).2.testBit 4 = msr0.testBit 4 := by
  unfold tiocmset_regs
  split_ifs <;> simp_all [Nat.testBit_lor, Nat.testBit_land]

lemma regs_msr_dtr_frame (mcr0 msr0 set clear : Nat)
    (hs : set &&& TIOCM_DTR = 0) (hc : clear &&& TIOCM_DTR = 0) :
    (tiocmset_regs mcr0 msr0 set clear).2.testBit 6 = msr0.testBit 6 ∧
    (tiocmset_regs mcr0 msr0 set clear).2.testBit 5 = msr0.testBit 5 := by
  unfold tiocmset_regs
  split_ifs <;> constructor <;> simp_all [Nat.testBit_lor, Nat.testBit_land]

/-! ### Counterpart lemmas -/

lemma get_counterpart_of_open (st : DriverState) (i : Nat) (c : Tty0ttySerial)
    (hc : st.table (counterpart_idx i) = some c) (hopen : 0 < c.open_count) :
    get_counterpart st.table i = some c := by
  unfold get_counterpart
  rw [hc]
  simp [hopen]

lemma counterpart_msr_of_open (st : DriverState) (i : Nat) (c : Tty0ttySerial)
    (hc : st.table (counterpart_idx i) = some c) (hopen : 0 < c.open_count) :
    counterpart_msr st i = c.msr := by
  unfold counterpart_msr
  rw [get_counterpart_of_open st i c hc hopen]

/-- The counterpart record after `tty0tty_tiocmset` with an open
counterpart: only its MSR changes, to the second component of
`tiocmset_regs` started from the counterpart's own MSR. -/
lemma tiocmset_table_counterpart (st : DriverState) (i set clear : Nat)
    (t c : Tty0ttySerial) (st' : DriverState) (r : Int)
    (ht : st.table i = some t)
    (hc : st.table (counterpart_idx i) = some c) (hopen : 0 < c.open_count)
    (hrun : tty0tty_tiocmset st i set clear = some (st', r)) :
    st'.table (counterpart_idx i) =
      some { c with msr := (tiocmset_regs t.mcr c.msr set clear).2 } := by
  rw [tiocmset_some st i set clear t ht] at hrun
  simp only [get_counterpart_of_open st i c hc hopen,
    counterpart_msr_of_open st i c hc hopen] at hrun
  have hst : st' =
      ⟨updTable (updTable st.table i
           (some { t with mcr := (tiocmset_regs t.mcr c.msr set clear).1 }))
         (counterpart_idx i)
         (some { c with msr := (tiocmset_regs t.mcr c.msr set clear).2 })⟩ :=
    (congrArg Prod.fst (Option.some.inj hrun)).symm
  subst hst
  exact updTable_self ..

/-- C4: after `tty0tty_tiocmset` on port `i` with an open counterpart `c`:
setting RTS (without clearing it) sets the counterpart's CTS bit; setting DTR
(without clearing it) sets the counterpart's DSR and CD bits; clearing RTS
clears CTS; clearing DTR clears DSR and CD; the counterpart's RI bit, its
untouched status bits, and its other fields are not disturbed. -/
theorem C4_null_modem_transfer (st : DriverState) (i set clear : Nat)
    (t c : Tty0ttySerial) (st' : DriverState) (r : Int) (c' : Tty0ttySerial)
    (ht : st.table i = some t)
    (hc : st.table (counterpart_idx i) = some c)
    (hopen : 0 < c.open_count)
    (hrun : tty0tty_tiocmset st i set clear = some (st', r))
    (hc' : st'.table (counterpart_idx i) = some c') :
    (set &&& TIOCM_RTS ≠ 0 → clear &&& TIOCM_RTS = 0 → c'.msr.testBit 4 = true) ∧
    (clear &&& TIOCM_RTS ≠ 0 → c'.msr.testBit 4 = false) ∧
    (set &&& TIOCM_DTR ≠ 0 → clear &&& TIOCM_DTR = 0 →
       c'.msr.testBit 6 = true ∧ c'.msr.testBit 5 = true) ∧
    (clear &&& TIOCM_DTR ≠ 0 →
       c'.msr.testBit 6 = false ∧ c'.msr.testBit 5 = false) ∧
    c'.msr.testBit 7 = c.msr.testBit 7 ∧
    (set &&& TIOCM_RTS = 0 → clear &&& TIOCM_RTS = 0 →
       c'.msr.testBit 4 = c.msr.testBit 4) ∧
    (set &&& TIOCM_DTR = 0 → clear &&& TIOCM_DTR = 0 →
       c'.msr.testBit 6 = c.msr.testBit 6 ∧ c'.msr.testBit 5 = c.msr.testBit 5) ∧
    c'.open_count = c.open_count ∧ c'.mcr = c.mcr ∧ c'.icount = c.icount := by
  have h := tiocmset_table_counterpart st i set clear t c st' r ht hc hopen hrun
  rw [hc'] at h
  cases Option.some.inj h
  refine ⟨fun hs hcl => regs_msr_cts_set _ _ _ _ hs hcl,
    fun hcl => regs_msr_cts_clear _ _ _ _ hcl,
    fun hs hcl => regs_msr_dsr_cd_set _ _ _ _ hs hcl,
    fun hcl => regs_msr_dsr_cd_clear _ _ _ _ hcl,
    regs_msr_ri_frame _ _ _ _,
    fun hs hcl => regs_msr_cts_frame _ _ _ _ hs hcl,
    fun hs hcl => regs_msr_dtr_frame _ _ _ _ hs hcl,
    rfl, rfl, rfl⟩

/-- Witness state for C4: ports 0 and 1 both open, all registers clear. -/
def w4_st : DriverState :=
  ⟨fun j => if j = 0 then some ⟨1, 0, 0, zeroIcount⟩
    else if j = 1 then some ⟨1, 0, 0, zeroIcount⟩ else none⟩

/-- The state after `tty0tty_tiocmset w4_st 0 TIOCM_RTS 0`. -/
def w4_st' : DriverState :=
  ⟨updTable (updTable w4_st.table 0 (some ⟨1, 0, 2, zeroIcount⟩)) 1
    (some ⟨1, 16, 0, zeroIcount⟩)⟩

/-- Witness for C4: setting RTS on port 0 gives port 1 MSR = 0x10,
whose CTS bit is set. -/
theorem C4_null_modem_transfer_witness : Nat.testBit 16 4 = true :=
  (C4_null_modem_transfer w4_st 0 4 0 ⟨1, 0, 0, zeroIcount⟩ ⟨1, 0, 0, zeroIcount⟩
      w4_st' 0 ⟨1, 16, 0, zeroIcount⟩ rfl rfl (by decide) rfl rfl).1
    (by decide) (by decide)

/-- C5: `tty0tty_open` creates the record on first use (so that it reaches
`open_count = 1` with counters and registers from the zeroed allocation),
always recomputes the port's MSR from the counterpart's current MCR via the
null-modem transfer (with an absent or closed counterpart contributing 0),
clears the port's MCR, and increments `open_count` — also on re-open while
other holders keep the port open; no other port is affected. -/
theorem C5_open_semantics (st : DriverState) (i : Nat) :
    ((st.table i = none →
       (tty0tty_open st i).table i =
         some ⟨1, open_msr (counterpart_mcr st i), 0, zeroIcount⟩) ∧
     (∀ t, st.table i = some t →
       (tty0tty_open st i).table i =
         some { t with open_count := t.open_count + 1,
                       msr := open_msr (counterpart_mcr st i), mcr := 0 })) ∧
    (st.table (counterpart_idx i) = none → counterpart_mcr st i = 0) ∧
    (∀ c, st.table (counterpart_idx i) = some c → c.open_count = 0 →
       counterpart_mcr st i = 0) ∧
    (∀ j, j ≠ i → (tty0tty_open st i).table j = st.table j) := by
  refine ⟨⟨fun hn => ?_, fun t ht => ?_⟩, fun hn => ?_, fun c hc hz => ?_,
    fun j hj => ?_⟩
  · simp only [tty0tty_open, hn, updTable_self]
  · simp only [tty0tty_open, ht, updTable_self]
  · simp only [counterpart_mcr, get_counterpart, hn]
  · simp only [counterpart_mcr, get_counterpart, hc, hz]
    simp
  · cases hx : st.table i <;>
      simp only [tty0tty_open, hx, updTable_ne _ _ _ _ hj]

/-- Witness for C5: first open of port 0 on the fresh driver state. -/
theorem C5_open_semantics_witness :
    (tty0tty_open initState 0).table 0 =
      some ⟨1, open_msr (counterpart_mcr initState 0), 0, zeroIcount⟩ :=
  (C5_open_semantics initState 0).1.1 rfl

/-- Counterexample state for C3: port 0 exists but is fully closed
(`open_count = 0`), port 1 is open and currently observes CTS
(`msr = 0x10`). -/
def c3_st : DriverState :=
  ⟨fun j => if j = 0 then some ⟨0, 0, 0, zeroIcount⟩
    else if j = 1 then some ⟨1, 16, 0, zeroIcount⟩ else none⟩

/-- Counterexample for C3: closing port 0 while its `open_count` is 0 is not
a no-op — it clears the open counterpart's MSR from 0x10 to 0. -/
theorem C3_close_counterexample :
    c3_st.table 0 = some ⟨0, 0, 0, zeroIcount⟩ ∧
    c3_st.table 1 = some ⟨1, 16, 0, zeroIcount⟩ ∧
    (tty0tty_close c3_st 0).table 1 = some ⟨1, 0, 0, zeroIcount⟩ :=
  ⟨rfl, rfl, rfl⟩

/-- C3 (amended): `do_close` always clears the counterpart's MSR when the
counterpart is open — even when the closing port's `open_count` is already
0, because the MSR clear happens before the `open_count` check; the port's
own `open_count` is decremented by exactly 1 when positive and left at 0
otherwise, and no other port is affected. -/
theorem C3_close_amended (st : DriverState) (i : Nat) (t : Tty0ttySerial)
    (ht : st.table i = some t) :
    (∀ c, st.table (counterpart_idx i) = some c → 0 < c.open_count →
       (tty0tty_close st i).table (counterpart_idx i) = some { c with msr := 0 }) ∧
    (get_counterpart st.table i = none →
       (tty0tty_close st i).table (counterpart_idx i) =
         st.table (counterpart_idx i)) ∧
    ((tty0tty_close st i).table i =
       some (if t.open_count = 0 then t
             else { t with open_count := t.open_count - 1 })) ∧
    (∀ j, j ≠ i → j ≠ counterpart_idx i →
       (tty0tty_close st i).table j = st.table j) := by
  refine ⟨fun c hc hopen => ?_, fun hn => ?_, ?_, fun j hj hj' => ?_⟩
  · simp only [tty0tty_close, do_close, ht,
      get_counterpart_of_open st i c hc hopen,
      updTable_ne _ _ _ _ (counterpart_idx_ne i), updTable_self]
  · simp only [tty0tty_close, do_close, ht, hn,
      updTable_ne _ _ _ _ (counterpart_idx_ne i)]
  · cases hg : get_counterpart st.table i <;>
      simp only [tty0tty_close, do_close, ht, hg, updTable_self]
  · cases hg : get_counterpart st.table i <;>
      simp only [tty0tty_close, do_close, ht, hg, updTable_ne _ _ _ _ hj,
        updTable_ne _ _ _ _ hj']

/-- Witness for C3 (amended), on the counterexample state: the close clears
port 1's MSR and leaves port 0's record untouched. -/
theorem C3_close_amended_witness :
    (tty0tty_close c3_st 0).table 1 = some ⟨1, 0, 0, zeroIcount⟩ ∧
    (tty0tty_close c3_st 0).table 0 = some ⟨0, 0, 0, zeroIcount⟩ :=
  ⟨(C3_close_amended c3_st 0 ⟨0, 0, 0, zeroIcount⟩ rfl).1 ⟨1, 16, 0, zeroIcount⟩
      rfl (by decide),
   (C3_close_amended c3_st 0 ⟨0, 0, 0, zeroIcount⟩ rfl).2.2.1⟩

/-- Counterexample state for C1: port 0 open, port 1 never created. -/
def c1_st : DriverState :=
  ⟨fun j => if j = 0 then some ⟨1, 0, 0, zeroIcount⟩ else none⟩

/-- Counterexample for C1: a write on open port 0, whose counterpart was
never created, returns `-EINVAL` — an error, not success with 0 bytes. -/
theorem C1_write_counterexample :
    tty0tty_write c1_st 0 [97, 98, 99] = (-EINVAL, none) ∧
    (-EINVAL : Int) ≠ 0 ∧ (-EINVAL : Int) ≠ 3 :=
  ⟨rfl, by decide, by decide⟩

/-- C1 (amended): a write on an open port whose counterpart is absent or not
open fails with `-EINVAL` and inserts nothing into any flip buffer (the
bytes are discarded, but as an error, not as a 0-byte success). -/
theorem C1_write_no_listener (st : DriverState) (i : Nat) (t : Tty0ttySerial)
    (buffer : List Nat) (ht : st.table i = some t) (hopen : 0 < t.open_count)
    (hnone : get_counterpart st.table i = none) :
    tty0tty_write st i buffer = (-EINVAL, none) := by
  have h0 : ¬t.open_count = 0 := Nat.pos_iff_ne_zero.mp hopen
  simp only [tty0tty_write, ht, h0, if_false, hnone]

/-- Witness for C1 (amended) on the counterexample state. -/
theorem C1_write_no_listener_witness :
    tty0tty_write c1_st 0 [1, 2] = (-EINVAL, none) :=
  C1_write_no_listener c1_st 0 ⟨1, 0, 0, zeroIcount⟩ [1, 2] rfl (by decide) rfl

/-- C6: one woken iteration of the TIOCMIWAIT loop: a pending signal yields
`cancelled` (`-ERESTARTSYS`); otherwise, if none of the four watched
counters moved since the snapshot, `noChange` (`-EIO`); otherwise, if a
counter of a line requested in `arg` moved, `success`; otherwise the
snapshot is updated to the current counters and the caller blocks again. -/
theorem C6_wait_step (arg : Nat) (cprev cnow : AsyncIcount) (sig : Bool) :
    (sig = true → tiocmiwait_step arg cprev cnow sig = .cancelled) ∧
    (sig = false →
      ((cnow.rng = cprev.rng ∧ cnow.dsr = cprev.dsr ∧ cnow.dcd = cprev.dcd ∧
          cnow.cts = cprev.cts) →
         tiocmiwait_step arg cprev cnow sig = .noChange) ∧
      (¬(cnow.rng = cprev.rng ∧ cnow.dsr = cprev.dsr ∧ cnow.dcd = cprev.dcd ∧
          cnow.cts = cprev.cts) →
        (((arg &&& TIOCM_RNG ≠ 0 ∧ cnow.rng ≠ cprev.rng) ∨
          (arg &&& TIOCM_DSR ≠ 0 ∧ cnow.dsr ≠ cprev.dsr) ∨
          (arg &&& TIOCM_CD ≠ 0 ∧ cnow.dcd ≠ cprev.dcd) ∨
          (arg &&& TIOCM_CTS ≠ 0 ∧ cnow.cts ≠ cprev.cts)) →
           tiocmiwait_step arg cprev cnow sig = .success) ∧
        (¬((arg &&& TIOCM_RNG ≠ 0 ∧ cnow.rng ≠ cprev.rng) ∨
           (arg &&& TIOCM_DSR ≠ 0 ∧ cnow.dsr ≠ cprev.dsr) ∨
           (arg &&& TIOCM_CD ≠ 0 ∧ cnow.dcd ≠ cprev.dcd) ∨
           (arg &&& TIOCM_CTS ≠ 0 ∧ cnow.cts ≠ cprev.cts)) →
           tiocmiwait_step arg cprev cnow sig = .again cnow))) := by
  refine ⟨fun hs => ?_, fun hs => ⟨fun he => ?_, fun hne => ⟨fun hm => ?_,
    fun hnm => ?_⟩⟩⟩ <;> subst hs
  · simp [tiocmiwait_step]
  · simp only [tiocmiwait_step]
    rw [if_neg (by simp), if_pos he]
  · simp only [tiocmiwait_step]
    rw [if_neg (by simp), if_neg hne, if_pos hm]
  · simp only [tiocmiwait_step]
    rw [if_neg (by simp), if_neg hne, if_neg hnm]

/-- The current snapshot in the C6 witness: the CTS counter moved to 1. -/
def w6_cnow : AsyncIcount := ⟨1, 0, 0, 0, 0, 0, 0, 0, 0, 0, 0⟩

/-- Witness for C6: no signal, CTS counter moved, CTS requested — success. -/
theorem C6_wait_step_witness :
    tiocmiwait_step 32 zeroIcount w6_cnow false = .success :=
  (((C6_wait_step 32 zeroIcount w6_cnow false).2 rfl).2 (by decide)).1
    (by decide)

/-- C2 (evaluating the code at the claim's scenario): with ports 0 and 1
open and all counters zero, `tty0tty_tiocmset` asserting RTS on port 0 makes
port 1's CTS status line transition 0→1 (MSR 0x00 → 0x10), yet port 1's CTS
interrupt counter stays 0 — the driver increments no counter and wakes no
waiter on any status-line transition. -/
theorem C2_no_counter_increment :
    tty0tty_tiocmset w4_st 0 4 0 = some (w4_st', 0) ∧
    (w4_st.table 1).map (fun c => c.msr) = some 0 ∧
    (w4_st'.table 1).map (fun c => c.msr) = some 16 ∧
    (w4_st.table 1).map (fun c => c.icount.cts) = some 0 ∧
    (w4_st'.table 1).map (fun c => c.icount.cts) = some 0 :=
  ⟨rfl, rfl, rfl, rfl, rfl⟩

/-! ### The interrupt counters in reachable states -/

/-- Every existing record's counters are all zero. -/
def icountZero (st : DriverState) : Prop :=
  ∀ i t, st.table i = some t → t.icount = zeroIcount

lemma icountZero_init : icountZero initState := by
  intro i t h
  simp [initState] at h

/-- Inversion of a successful `get_counterpart`: the counterpart record
exists and is open. -/
lemma get_counterpart_some (table : Nat → Option Tty0ttySerial) (i : Nat)
    (c : Tty0ttySerial) (hg : get_counterpart table i = some c) :
    table (counterpart_idx i) = some c ∧ 0 < c.open_count := by
  unfold get_counterpart at hg
  split at hg
  next tts heq =>
    by_cases hp : 0 < tts.open_count
    · rw [if_pos hp] at hg
      cases Option.some.inj hg
      exact ⟨heq, hp⟩
    · rw [if_neg hp] at hg
      exact absurd hg (by simp)
  next heq => exact absurd hg (by simp)

lemma icountZero_open (st : DriverState) (i : Nat) (h : icountZero st) :
    icountZero (tty0tty_open st i) := by
  intro j t' hj
  by_cases hji : j = i
  · subst hji
    cases hx : st.table j with
    | none =>
      simp only [tty0tty_open, hx, updTable_self, Option.some.injEq] at hj
      cases hj
      rfl
    | some t0 =>
      simp only [tty0tty_open, hx, updTable_self, Option.some.injEq] at hj
      cases hj
      exact h j t0 hx
  · cases hx : st.table i with
    | none =>
      simp only [tty0tty_open, hx, updTable_ne _ _ _ _ hji] at hj
      exact h j t' hj
    | some t0 =>
      simp only [tty0tty_open, hx, updTable_ne _ _ _ _ hji] at hj
      exact h j t' hj

lemma icountZero_close (st : DriverState) (i : Nat) (h : icountZero st) :
    icountZero (tty0tty_close st i) := by
  intro j t' hj
  cases hx : st.table i with
  | none =>
    simp only [tty0tty_close, hx] at hj
    exact h j t' hj
  | some t =>
    by_cases hji : j = i
    · subst hji
      cases hg : get_counterpart st.table j with
      | none =>
        simp only [tty0tty_close, do_close, hx, hg, updTable_self,
          Option.some.injEq] at hj
        cases hj
        split <;> exact h j t hx
      | some c =>
        simp only [tty0tty_close, do_close, hx, hg, updTable_self,
          Option.some.injEq] at hj
        cases hj
        split <;> exact h j t hx
    · cases hg : get_counterpart st.table i with
      | none =>
        simp only [tty0tty_close, do_close, hx, hg,
          updTable_ne _ _ _ _ hji] at hj
        exact h j t' hj
      | some c =>
        by_cases hjc : j = counterpart_idx i
        · subst hjc
          simp only [tty0tty_close, do_close, hx, hg,
            updTable_ne _ _ _ _ hji, updTable_self, Option.some.injEq] at hj
          cases hj
          exact h _ c (get_counterpart_some st.table i c hg).1
        · simp only [tty0tty_close, do_close, hx, hg,
            updTable_ne _ _ _ _ hji, updTable_ne _ _ _ _ hjc] at hj
          exact h j t' hj

lemma icountZero_tiocmset (st : DriverState) (i set clear : Nat)
    (h : icountZero st) : icountZero (stepOp st (.tiocmsetOp i set clear)) := by
  intro j t' hj
  cases hx : st.table i with
  | none =>
    simp only [stepOp, tty0tty_tiocmset, hx] at hj
    exact h j t' hj
  | some t =>
    have hrun := tiocmset_some st i set clear t hx
    simp only [stepOp, hrun] at hj
    cases hg : get_counterpart st.table i with
    | none =>
      simp only [hg] at hj
      by_cases hji : j = i
      · subst hji
        rw [updTable_self] at hj
        cases Option.some.inj hj
        exact h j t hx
      · rw [updTable_ne _ _ _ _ hji] at hj
        exact h j t' hj
    | some c =>
      simp only [hg] at hj
      by_cases hjc : j = counterpart_idx i
      · subst hjc
        rw [updTable_self] at hj
        cases Option.some.inj hj
        exact h _ c (get_counterpart_some st.table i c hg).1
      · rw [updTable_ne _ _ _ _ hjc] at hj
        by_cases hji : j = i
        · subst hji
          rw [updTable_self] at hj
          cases Option.some.inj hj
          exact h j t hx
        · rw [updTable_ne _ _ _ _ hji] at hj
          exact h j t' hj

lemma icountZero_reachable (st : DriverState) (h : Reachable st) :
    icountZero st := by
  induction h with
  | init => exact icountZero_init
  | next st op _ ih =>
    cases op with
    | openOp i => exact icountZero_open st i ih
    | closeOp i => exact icountZero_close st i ih
    | writeOp i buffer => exact ih
    | tiocmsetOp i set clear => exact icountZero_tiocmset st i set clear ih

/-- C8: no driver operation ever modifies any port's interrupt counters — in
every reachable state every counter equals its initial zero — so a
TIOCMIWAIT iteration whose wake is not a signal always compares two all-zero
snapshots and returns the `-EIO` no-change error; its success branch is
unreachable. -/
theorem C8_counters_frozen (st st' : DriverState) (i i' : Nat)
    (t t' : Tty0ttySerial) (arg : Nat)
    (hst : Reachable st) (hst' : Reachable st')
    (ht : st.table i = some t) (ht' : st'.table i' = some t') :
    t.icount = zeroIcount ∧ t'.icount = zeroIcount ∧
    tiocmiwait_step arg t.icount t'.icount false = .noChange := by
  have h1 : t.icount = zeroIcount := icountZero_reachable st hst i t ht
  have h2 : t'.icount = zeroIcount := icountZero_reachable st' hst' i' t' ht'
  refine ⟨h1, h2, ?_⟩
  rw [h1, h2]
  simp [tiocmiwait_step]

/-- Witness for C8: the state after opening port 0 once. -/
theorem C8_counters_frozen_witness :
    (⟨1, 0, 0, zeroIcount⟩ : Tty0ttySerial).icount = zeroIcount ∧
    zeroIcount = zeroIcount ∧
    tiocmiwait_step 32 zeroIcount zeroIcount false = .noChange :=
  C8_counters_frozen (stepOp initState (.openOp 0)) (stepOp initState (.openOp 0))
    0 0 ⟨1, 0, 0, zeroIcount⟩ ⟨1, 0, 0, zeroIcount⟩ 32
    (Reachable.next initState (.openOp 0) Reachable.init)
    (Reachable.next initState (.openOp 0) Reachable.init) rfl rfl

/-- C10: the modem-line operations ignore `open_count`: on a port whose
record exists but whose `open_count` is 0, `tty0tty_tiocmget` still returns
its result and `tty0tty_tiocmset` still succeeds with return value 0,
mutates the port's MCR, and propagates status to an open counterpart. -/
theorem C10_modem_ops_on_closed_port (st : DriverState) (i : Nat)
    (t : Tty0ttySerial) (ht : st.table i = some t)
    (_hz : t.open_count = 0) :
    tty0tty_tiocmget st i = some (tiocmget_result t) ∧
    (∀ set clear, ∃ st',
      tty0tty_tiocmset st i set clear = some (st', 0) ∧
      st'.table i =
        some { t with
          mcr := (tiocmset_regs t.mcr (counterpart_msr st i) set clear).1 } ∧
      (∀ c, st.table (counterpart_idx i) = some c → 0 < c.open_count →
        st'.table (counterpart_idx i) =
          some { c with msr := (tiocmset_regs t.mcr c.msr set clear).2 })) := by
  constructor
  · simp only [tty0tty_tiocmget, ht]
  · intro set clear
    refine ⟨_, tiocmset_some st i set clear t ht, ?_, ?_⟩
    · exact tiocmset_table_self st i set clear t _ 0 ht
        (tiocmset_some st i set clear t ht)
    · intro c hc hopen
      exact tiocmset_table_counterpart st i set clear t c _ 0 ht hc hopen
        (tiocmset_some st i set clear t ht)

/-- Witness state for C10: port 0 closed again (`open_count = 0`) but still
holding DTR in its MCR; port 1 open. -/
def w10_st : DriverState :=
  ⟨fun j => if j = 0 then some ⟨0, 0, 1, zeroIcount⟩
    else if j = 1 then some ⟨1, 0, 0, zeroIcount⟩ else none⟩

/-- Witness for C10: tiocmget succeeds on the closed port 0. -/
theorem C10_modem_ops_on_closed_port_witness :
    tty0tty_tiocmget w10_st 0 = some (tiocmget_result ⟨0, 0, 1, zeroIcount⟩) :=
  (C10_modem_ops_on_closed_port w10_st 0 ⟨0, 0, 1, zeroIcount⟩ rfl rfl).1

end Tty0tty
